import Mathlib

/-!
Shallow embedding of the occupancy-network wiring of Models.py and
networks.py.  Rank-2 tensors are modelled as lists of rational rows.  The
numeric kernels whose files are absent from the snapshot (Misc.py,
ModelParts.py, layers.py) are modelled from the spec where construction-time
validation is concerned, and enter as explicit semantic parameters where only
their values flow through the wiring.
-/

/-- Row of a rank-2 tensor: a list of rationals. -/
abbrev Vec : Type := List ℚ

/-- Rank-2 tensor: a list of rows. -/
abbrev Mat : Type := List Vec

/-- Error kinds surfaced by the embedded Python code paths. -/
inductive Err : Type where
  | configurationError (param : String)
  | shapeMismatch
  | unboundLocal
  | indexError
  | zeroDivision
  deriving DecidableEq, Repr

/-- Training versus evaluation mode of the module tree. -/
inductive Mode : Type where
  | train
  | eval
  deriving DecidableEq, Repr

/-- Recognized activation functions (spec section 4.2). -/
inductive ActivationKind : Type where
  | identity
  | leakyRelu
  | prelu
  | sigmoid
  deriving DecidableEq, Repr

/-- Recognized normalization operations (spec section 4.2). -/
inductive NormKind : Type where
  | noNorm
  | batchnorm
  | instancenorm
  | cbatchnorm
  deriving DecidableEq, Repr

/-- Recognized downsampling operations (spec section 4.3). -/
inductive DownKind : Type where
  | noDown
  | averagepool
  deriving DecidableEq, Repr

/-- Scalar-or-list configuration value, as accepted by Misc.parse_to_list. -/
inductive ValueOrList (α : Type) : Type where
  | scalar (a : α)
  | list (l : List α)

namespace Misc

variable {α : Type}

/-- Modelled from the spec: Misc.parse_to_list (file Misc.py is not part of
the snapshot).  A scalar, or a single tuple meant as one unit, is replicated
count times; a list of exactly the requested length passes through unchanged;
any other list is rejected with a ConfigurationError naming the offending
parameter (spec section 4.1). -/
def parse_to_list (value : ValueOrList α) (count : Nat) (name : String) :
    Except Err (List α) :=
  match value with
  | .scalar a => .ok (List.replicate count a)
  | .list l =>
      if l.length = count then .ok l else .error (.configurationError name)

/-- Modelled from the spec: Misc.get_activation (file Misc.py is not part of
the snapshot) resolves a symbolic activation name and rejects an unrecognized
name with a ConfigurationError (spec section 4.2). -/
def get_activation (name : String) : Except Err ActivationKind :=
  if name = "none" then .ok .identity
  else if name = "leaky relu" then .ok .leakyRelu
  else if name = "prelu" then .ok .prelu
  else if name = "sigmoid" then .ok .sigmoid
  else .error (.configurationError name)

/-- Modelled from the spec: the normalization registry (file ModelParts.py is
not part of the snapshot) resolves a symbolic normalization name and rejects
an unrecognized name with a ConfigurationError (spec section 4.2). -/
def get_normalization (name : String) : Except Err NormKind :=
  if name = "none" then .ok .noNorm
  else if name = "batchnorm" then .ok .batchnorm
  else if name = "instancenorm" then .ok .instancenorm
  else if name = "cbatchnorm" then .ok .cbatchnorm
  else .error (.configurationError name)

/-- Modelled from the spec: the downsampling registry (file ModelParts.py is
not part of the snapshot) resolves a symbolic downsampling name and rejects
an unrecognized name with a ConfigurationError (spec section 4.3). -/
def get_downsampling (name : String) : Except Err DownKind :=
  if name = "none" then .ok .noDown
  else if name = "averagepool" then .ok .averagepool
  else .error (.configurationError name)

end Misc

/-- Python list indexing with a nonnegative index: out of range raises. -/
def pyGet {α : Type} (l : List α) (i : Nat) : Except Err α :=
  match l[i]? with
  | some a => .ok a
  | none => .error .indexError

/-- Python list indexing with index -1: the last element, or IndexError on an
empty list. -/
def pyLast {α : Type} (l : List α) : Except Err α :=
  match l.getLast? with
  | some a => .ok a
  | none => .error .indexError

/-- Dot product of two rational vectors. -/
def dotQ (a b : Vec) : ℚ := (List.zipWith (fun x y => x * y) a b).sum

/-- A fully connected layer: one weight row per output feature, and a bias
entry per output feature. -/
structure LinearLayer : Type where
  weight : Mat
  bias : Vec

/-- Number of input features expected by a linear layer. -/
def LinearLayer.inFeatures (l : LinearLayer) : Nat := (l.weight.headD []).length

/-- Application of a linear layer to a single row. -/
def LinearLayer.applyRow (l : LinearLayer) (x : Vec) : Vec :=
  List.zipWith (fun w b => dotQ w x + b) l.weight l.bias

/-- Embedding of torch.repeat_interleave along dim 0 (Models.py line 138,
networks.py line 169): every row is repeated k times consecutively
(block-contiguous repeat). -/
def repeat_interleave {α : Type} (x : List α) (k : Nat) : List α :=
  x.flatMap (fun r => List.replicate k r)

/-- Embedding of torch.cat along dim 1: rows are concatenated pairwise; torch
rejects operands whose dim-0 sizes differ (a shape mismatch error). -/
def cat1 (a b : Mat) : Except Err Mat :=
  if a.length = b.length then .ok (List.zipWith (fun r s => r ++ s) a b)
  else .error .shapeMismatch

/-- Map with the element index, the index starting from a given offset. -/
def idxMap {α β : Type} (f : Nat → α → β) : Nat → List α → List β
  | _, [] => []
  | i, a :: t => f i a :: idxMap f (i + 1) t

/-- Modelled from the spec: dropout (the numeric blocks live in the absent
ModelParts.py) zeroes elements during training mode only and is the identity
during evaluation (spec sections 4.3 and 5).  The Boolean source drop decides
which elements are zeroed during training. -/
def dropoutRow (mode : Mode) (drop : Nat → Bool) (rate : ℚ) (r : Vec) : Vec :=
  match mode with
  | .eval => r
  | .train =>
      if rate = 0 then r else idxMap (fun i v => if drop i then 0 else v) 0 r

/-- Modelled from the spec: ModelParts.CoordinatesFullyConnectedBlock (file
ModelParts.py is not part of the snapshot).  The numeric body of one decoder
block (linear projection, conditional normalization taking the latent code as
side input, activation) is kept as an explicit per-row function; the record
keeps the channel widths and the dropout rate of the final dropout step
(spec section 4.4). -/
structure CoordinatesFullyConnectedBlock : Type where
  input_channels : Nat
  output_channels : Nat
  dropout_rate : ℚ
  rowMap : Vec → Mat → Vec

/-- Forward pass of one decoder block: the linear projection rejects rows
whose width differs from the configured input width (ShapeMismatchError);
then the per-row body runs with the latent code as conditioning side input,
followed by dropout. -/
def blockForward (mode : Mode) (mask : Nat → Nat → Bool)
    (blk : CoordinatesFullyConnectedBlock) (x latent : Mat) : Except Err Mat :=
  if ∀ r ∈ x, r.length = blk.input_channels then
    .ok (idxMap
      (fun ri r => dropoutRow mode (mask ri) blk.dropout_rate (blk.rowMap r latent))
      0 x)
  else .error .shapeMismatch

/-- Decoder loop body: each block consumes the running state and re-consumes
the same latent conditioning; the mask is indexed by block, row and column. -/
def decodingFold (mode : Mode) (mask : Nat → Nat → Nat → Bool) :
    List CoordinatesFullyConnectedBlock → Nat → Mat → Mat → Except Err Mat
  | [], _, x, _ => .ok x
  | blk :: rest, idx, x, latent =>
      match blockForward mode (mask idx) blk x latent with
      | .error e => .error e
      | .ok y => decodingFold mode mask rest (idx + 1) y latent

/-- Embedding of the decoder loop of OccupancyNetwork.forward (Models.py
lines 142-146): with an empty block list the Python loop never binds
output_decoding and the following use raises UnboundLocalError. -/
def decodingLoop (mode : Mode) (mask : Nat → Nat → Nat → Bool)
    (blocks : List CoordinatesFullyConnectedBlock) (x latent : Mat) :
    Except Err Mat :=
  match blocks with
  | [] => .error .unboundLocal
  | blk :: rest => decodingFold mode mask (blk :: rest) 0 x latent

/-- Output head (Models.py lines 122-124, 148): the final linear layer rejects
rows of the wrong width, then the configured output activation is applied
elementwise under a given interpretation of the primitive activations. -/
def headForward (actSem : ActivationKind → ℚ → ℚ) (lin : LinearLayer)
    (act : ActivationKind) (x : Mat) : Except Err Mat :=
  if ∀ r ∈ x, r.length = lin.inFeatures then
    .ok (x.map (fun r => (lin.applyRow r).map (actSem act)))
  else .error .shapeMismatch

/-- Row-level view of the decoder loop in evaluation mode (dropout inactive):
the running row passes through every block, each conditioned on the latent. -/
def evalRowPipe (latent : Mat) :
    List CoordinatesFullyConnectedBlock → Vec → Vec
  | [], r => r
  | blk :: rest, r => evalRowPipe latent rest (blk.rowMap r latent)

/-- Check that the decoder block widths chain: the first block consumes the
given width and every later block consumes the width the previous one
produces. -/
def widthsChain : List CoordinatesFullyConnectedBlock → Nat → Bool
  | [], _ => true
  | blk :: rest, w => decide (blk.input_channels = w) && widthsChain rest blk.output_channels

/-- Width of the running state after the whole decoder block list. -/
def lastWidth : List CoordinatesFullyConnectedBlock → Nat → Nat
  | [], w => w
  | blk :: rest, _ => lastWidth rest blk.output_channels

/-- The occupancy network after construction: encoder stack (together with the
flatten step) as one semantic function, decoder block list, and output head. -/
structure OccupancyNetwork (V : Type) : Type where
  encoding : List V → Mat
  decoding : List CoordinatesFullyConnectedBlock
  output_linear : LinearLayer
  output_activation : ActivationKind

/-- Embedding of OccupancyNetwork.forward (Models.py lines 126-149): encode
and flatten the volume, broadcast-repeat the latent by
int(coordinate rows / volume rows) - a ZeroDivisionError when the volume
batch is empty - concatenate with the coordinates, run the decoder loop with
the flattened latent as conditioning side input of every block, and apply the
output head. -/
def OccupancyNetwork.forward {V : Type} (actSem : ActivationKind → ℚ → ℚ)
    (mode : Mode) (mask : Nat → Nat → Nat → Bool) (m : OccupancyNetwork V)
    (volume : List V) (coordinates : Mat) : Except Err Mat :=
  let output_encoding_flatten := m.encoding volume
  if volume.length = 0 then .error .zeroDivision
  else
    match cat1
        (repeat_interleave output_encoding_flatten (coordinates.length / volume.length))
        coordinates with
    | .error e => .error e
    | .ok input_decoding =>
        match decodingLoop mode mask m.decoding input_decoding
            output_encoding_flatten with
        | .error e => .error e
        | .ok output_decoding =>
            headForward actSem m.output_linear m.output_activation output_decoding

/-- Buffer-threading variant of OccupancyNetwork.forward: the input volume and
coordinate buffers are carried through the pass and returned as the code
leaves them.  Every embedded torch operation of the source allocates a fresh
tensor (the source line 144 even clones the latent) and the source contains
no in-place update of either input. -/
def OccupancyNetwork.forwardTrace {V : Type} (actSem : ActivationKind → ℚ → ℚ)
    (mode : Mode) (mask : Nat → Nat → Nat → Bool) (m : OccupancyNetwork V)
    (volume : List V) (coordinates : Mat) :
    Except Err (Mat × (List V × Mat)) :=
  let output_encoding_flatten := m.encoding volume
  if volume.length = 0 then .error .zeroDivision
  else
    match cat1
        (repeat_interleave output_encoding_flatten (coordinates.length / volume.length))
        coordinates with
    | .error e => .error e
    | .ok input_decoding =>
        match decodingLoop mode mask m.decoding input_decoding
            output_encoding_flatten with
        | .error e => .error e
        | .ok output_decoding =>
            match headForward actSem m.output_linear m.output_activation
                output_decoding with
            | .error e => .error e
            | .ok output => .ok (output, (volume, coordinates))

/-- Embedding of OccupancyNetworkNoCat.forward (Models.py lines 269-288): the
same encoding and flatten, then the coordinates alone enter the decoder loop,
which re-consumes the unrepeated flattened latent as conditioning side input;
no repetition and no concatenation occur. -/
def OccupancyNetworkNoCat.forward {V : Type} (actSem : ActivationKind → ℚ → ℚ)
    (mode : Mode) (mask : Nat → Nat → Nat → Bool) (m : OccupancyNetwork V)
    (volume : List V) (coordinates : Mat) : Except Err Mat :=
  let output_encoding_flatten := m.encoding volume
  match decodingLoop mode mask m.decoding coordinates output_encoding_flatten with
  | .error e => .error e
  | .ok output_decoding =>
      headForward actSem m.output_linear m.output_activation output_decoding

/-- Configuration record of one volume encoder block, as assembled by the
constructor; the numeric block body lives in the absent ModelParts.py. -/
structure VolumeEncoderBlockCfg : Type where
  input_channels : Nat
  output_channels : Nat
  kernel_size : Nat
  stride : Nat
  padding : Nat
  activation : ActivationKind
  downsampling : DownKind
  downsampling_factor : Nat
  normalization : NormKind
  dropout_rate : ℚ
  bias : Bool

/-- Modelled from the spec: the ModelParts.VolumeEncoderBlock constructor
resolves its activation, downsampling and normalization names and fails fast
with a ConfigurationError on an unrecognized name (spec sections 4.2, 4.3). -/
def mkVolumeEncoderBlock (input_channels output_channels kernel_size stride padding : Nat)
    (activation downsampling : String) (downsampling_factor : Nat)
    (normalization : String) (dropout_rate : ℚ) (bias : Bool) :
    Except Err VolumeEncoderBlockCfg := do
  let act ← Misc.get_activation activation
  let down ← Misc.get_downsampling downsampling
  let norm ← Misc.get_normalization normalization
  .ok { input_channels := input_channels, output_channels := output_channels,
        kernel_size := kernel_size, stride := stride, padding := padding,
        activation := act, downsampling := down,
        downsampling_factor := downsampling_factor, normalization := norm,
        dropout_rate := dropout_rate, bias := bias }

/-- Modelled from the spec: the ModelParts.CoordinatesFullyConnectedBlock
constructor resolves its activation and normalization names and fails fast
with a ConfigurationError on an unrecognized name; the numeric body enters as
the semantic parameter decSem (spec sections 4.2, 4.4). -/
def mkCoordinatesFullyConnectedBlock
    (decSem : Nat → Nat → ActivationKind → NormKind → ℚ → Bool → Vec → Mat → Vec)
    (input_channels output_channels : Nat) (activation normalization : String)
    (dropout_rate : ℚ) (bias : Bool) :
    Except Err CoordinatesFullyConnectedBlock := do
  let act ← Misc.get_activation activation
  let norm ← Misc.get_normalization normalization
  .ok { input_channels := input_channels, output_channels := output_channels,
        dropout_rate := dropout_rate,
        rowMap := decSem input_channels output_channels act norm dropout_rate bias }

/-- Embedding of OccupancyNetwork.__init__ (Models.py lines 60-124).  The
numeric semantics of the absent encoder and decoder block bodies and of the
freshly initialized output linear layer enter as the parameters encSem,
decSem and linInit; the constructor performs exactly the parameter
broadcasting, the name resolution, the per-index block assembly and the
channels_in_decoding_blocks[-1][1] indexing of the source. -/
def OccupancyNetwork.init {V : Type}
    (encSem : List VolumeEncoderBlockCfg → List V → Mat)
    (decSem : Nat → Nat → ActivationKind → NormKind → ℚ → Bool → Vec → Mat → Vec)
    (linInit : Nat → LinearLayer)
    (number_of_encoding_blocks : Nat)
    (channels_in_encoding_blocks : ValueOrList (Nat × Nat))
    (kernel_size_encoding stride_encoding padding_encoding : ValueOrList Nat)
    (activation_encoding downsampling_encoding : ValueOrList String)
    (downsampling_factor_encoding : ValueOrList Nat)
    (normalization_encoding : ValueOrList String)
    (dropout_rate_encoding : ValueOrList ℚ)
    (bias_encoding : ValueOrList Bool)
    (number_of_decoding_blocks : Nat)
    (channels_in_decoding_blocks : ValueOrList (Nat × Nat))
    (activation_decoding normalization_decoding : ValueOrList String)
    (dropout_rate_decoding : ValueOrList ℚ)
    (bias_decoding : ValueOrList Bool)
    (output_activation : String) : Except Err (OccupancyNetwork V) := do
  let cie ← Misc.parse_to_list channels_in_encoding_blocks number_of_encoding_blocks
    "channels in encoding blocks"
  let kse ← Misc.parse_to_list kernel_size_encoding number_of_encoding_blocks
    "kernel size encoding"
  let ste ← Misc.parse_to_list stride_encoding number_of_encoding_blocks
    "stride encoding"
  let pde ← Misc.parse_to_list padding_encoding number_of_encoding_blocks
    "padding encoding"
  let ace ← Misc.parse_to_list activation_encoding number_of_encoding_blocks
    "activation encoding"
  let dse ← Misc.parse_to_list downsampling_encoding number_of_encoding_blocks
    "downsampling encoding"
  let dfe ← Misc.parse_to_list downsampling_factor_encoding number_of_encoding_blocks
    "downsampling factor encoding"
  let nme ← Misc.parse_to_list normalization_encoding number_of_encoding_blocks
    "normalization encoding"
  let dre ← Misc.parse_to_list dropout_rate_encoding number_of_encoding_blocks
    "dropout rate encoding"
  let bie ← Misc.parse_to_list bias_encoding number_of_encoding_blocks
    "bias encoding"
  let cdd ← Misc.parse_to_list channels_in_decoding_blocks number_of_decoding_blocks
    "channels in decoding blocks"
  let acd ← Misc.parse_to_list activation_decoding number_of_decoding_blocks
    "activation decoding"
  let nmd ← Misc.parse_to_list normalization_decoding number_of_decoding_blocks
    "normalization decoding"
  let drd ← Misc.parse_to_list dropout_rate_decoding number_of_decoding_blocks
    "dropout rate decoding"
  let bid ← Misc.parse_to_list bias_decoding number_of_decoding_blocks
    "bias decoding"
  let encCfgs ← (List.range number_of_encoding_blocks).mapM (fun index => do
    let ch ← pyGet cie index
    let ks ← pyGet kse index
    let st ← pyGet ste index
    let pd ← pyGet pde index
    let ac ← pyGet ace index
    let ds ← pyGet dse index
    let df ← pyGet dfe index
    let nm ← pyGet nme index
    let dr ← pyGet dre index
    let bi ← pyGet bie index
    mkVolumeEncoderBlock ch.1 ch.2 ks st pd ac ds df nm dr bi)
  let decBlocks ← (List.range number_of_decoding_blocks).mapM (fun index => do
    let ch ← pyGet cdd index
    let ac ← pyGet acd index
    let nm ← pyGet nmd index
    let dr ← pyGet drd index
    let bi ← pyGet bid index
    mkCoordinatesFullyConnectedBlock decSem ch.1 ch.2 ac nm dr bi)
  let lastCh ← pyLast cdd
  let outAct ← Misc.get_activation output_activation
  .ok { encoding := encSem encCfgs, decoding := decBlocks,
        output_linear := linInit lastCh.2, output_activation := outAct }

/-- Embedding of OccupancyNetworkNoCat.__init__ (Models.py lines 203-267):
the constructor body is line for line the one of OccupancyNetwork.__init__,
only the default argument values of the source differ and defaults are
supplied explicitly here. -/
def OccupancyNetworkNoCat.init {V : Type} := @OccupancyNetwork.init V

/-- Embedding of Res_Auto_3d_Model_Occu (networks.py lines 151-171): the
encoder stack together with the flatten of line 168 is one semantic function,
and the fully connected decoder stack acts row-wise (layers.py is not part of
the snapshot). -/
structure Res_Auto_3d_Model_Occu (V : Type) : Type where
  encode : List V → Mat
  decode : Vec → Vec

/-- Embedding of Res_Auto_3d_Model_Occu.forward (networks.py lines 166-171):
encode and flatten, broadcast-repeat by int(coordinate rows / volume rows),
concatenate with the coordinates, decode row-wise. -/
def Res_Auto_3d_Model_Occu.forward {V : Type} (m : Res_Auto_3d_Model_Occu V)
    (volume : List V) (coords : Mat) : Except Err Mat :=
  let out := m.encode volume
  if volume.length = 0 then .error .zeroDivision
  else
    match cat1 (repeat_interleave out (coords.length / volume.length)) coords with
    | .error e => .error e
    | .ok catted => .ok (catted.map m.decode)

/-- Buffer-threading variant of Res_Auto_3d_Model_Occu.forward, carrying the
input buffers through the pass; the source contains no in-place update of
either input (the print on line 170 reads a reduction only). -/
def Res_Auto_3d_Model_Occu.forwardTrace {V : Type} (m : Res_Auto_3d_Model_Occu V)
    (volume : List V) (coords : Mat) : Except Err (Mat × (List V × Mat)) :=
  let out := m.encode volume
  if volume.length = 0 then .error .zeroDivision
  else
    match cat1 (repeat_interleave out (coords.length / volume.length)) coords with
    | .error e => .error e
    | .ok catted => .ok (catted.map m.decode, (volume, coords))

/-- Embedding of torch.sign on rationals. -/
def signQ (x : ℚ) : ℚ := if 0 < x then 1 else if x < 0 then -1 else 0

/-- Elementwise score transform of
Res_Auto_3d_Model_Occu_Parallel.inference (networks.py line 149):
(sign(score - 0.1) + 1) / 2. -/
def inference_transform (score : ℚ) : ℚ := (signQ (score - 1 / 10) + 1) / 2

/-- Embedding of Res_Auto_3d_Model_Occu_Parallel.forward (networks.py lines
145-146): the data-parallel wrapper delegates to the wrapped model. -/
def Res_Auto_3d_Model_Occu_Parallel.forward {V : Type}
    (m : Res_Auto_3d_Model_Occu V) (volume : List V) (coords : Mat) :
    Except Err Mat :=
  Res_Auto_3d_Model_Occu.forward m volume coords

/-- Embedding of Res_Auto_3d_Model_Occu_Parallel.inference (networks.py lines
148-149): the forward scores, transformed elementwise by
(sign(score - 0.1) + 1) / 2. -/
def Res_Auto_3d_Model_Occu_Parallel.inference {V : Type}
    (m : Res_Auto_3d_Model_Occu V) (volume : List V) (coords : Mat) :
    Except Err Mat :=
  (Res_Auto_3d_Model_Occu_Parallel.forward m volume coords).map
    (fun out => out.map (fun r => r.map inference_transform))

/-- Sample interpretation of the primitive activations, for witnesses; the
sigmoid entry is a placeholder value function, no witness depends on it. -/
def actSemSample : ActivationKind → ℚ → ℚ
  | .identity, x => x
  | .leakyRelu, x => if x < 0 then x / 100 else x
  | .prelu, x => if x < 0 then x / 4 else x
  | .sigmoid, x => x

/-- Sample dropout source that never drops, for witnesses. -/
def maskSample : Nat → Nat → Nat → Bool := fun _ _ _ => false

/-- Sample encoder semantics on a unit volume type, for witnesses: every
batch element encodes to the flattened latent row [0]. -/
def encSemSample : List VolumeEncoderBlockCfg → List Unit → Mat :=
  fun _ vs => vs.map (fun _ => [0])

/-- Sample decoder block semantics, for witnesses: a row maps to the zero row
of the configured output width. -/
def decSemSample : Nat → Nat → ActivationKind → NormKind → ℚ → Bool → Vec → Mat → Vec :=
  fun _ out_channels _ _ _ _ _ _ => List.replicate out_channels 0

/-- Sample initializer of a fresh linear layer, for witnesses. -/
def linInitSample : Nat → LinearLayer :=
  fun n => { weight := [List.replicate n 1], bias := [0] }

/-- Concrete decoder block for the C3 witness. -/
def blkC3 : CoordinatesFullyConnectedBlock :=
  { input_channels := 4, output_channels := 1, dropout_rate := 0,
    rowMap := fun _ _ => [0] }

/-- Concrete occupancy network for the C3 witness: latent width 1, one
decoder block consuming width 1 + 3, identity output head. -/
def mC3 : OccupancyNetwork Unit :=
  { encoding := fun vs => vs.map (fun _ => [0]), decoding := [blkC3],
    output_linear := { weight := [[1]], bias := [0] },
    output_activation := .identity }

/-- Concrete decoder block for the C5 counterexample: its output row reports
how many rows the conditioning side input has, which makes the conditioning
actually supplied by the forward pass observable in the output. -/
def blkC5 : CoordinatesFullyConnectedBlock :=
  { input_channels := 3, output_channels := 1, dropout_rate := 0,
    rowMap := fun _ latent => [(latent.length : ℚ)] }

/-- Concrete occupancy network for the C5 counterexample. -/
def mC5 : OccupancyNetwork Unit :=
  { encoding := fun vs => vs.map (fun _ => [1]), decoding := [blkC5],
    output_linear := { weight := [[1]], bias := [0] },
    output_activation := .identity }

/-- Volume batch of size 1 for the C5 counterexample. -/
def volC5 : List Unit := [()]

/-- Coordinate batch with 2 query points per volume for the C5
counterexample. -/
def coordsC5 : Mat := [[0, 0, 0], [1, 1, 1]]

/-- Concrete wrapped model for the inference witnesses: the decoder returns
the raw score 1/10 for every query row. -/
def mRes : Res_Auto_3d_Model_Occu Unit :=
  { encode := fun vs => vs.map (fun _ => [1, 2]), decode := fun _ => [1 / 10] }

/-- Volume batch of size 2 for the C3 and C8 witnesses. -/
def volC3 : List Unit := [(), ()]

/-- Coordinate batch with 1 query point per volume for the C3 and C8
witnesses. -/
def coordsC3 : Mat := [[0, 0, 0], [0, 0, 0]]

/-- Coordinate batch whose row count 1 is not a multiple of the batch size 2,
for the C3 witness of the mismatch branch. -/
def coordsBad : Mat := [[0, 0, 0]]

/-! Helper lemmas. -/

theorem except_bind_ok {α β : Type} {x : Except Err α} {f : α → Except Err β} {b : β}
    (h : (x >>= f) = .ok b) : ∃ a, x = .ok a ∧ f a = .ok b := by
  cases x with
  | error e => exact Except.noConfusion h
  | ok a => exact ⟨a, rfl, h⟩

theorem except_bind_err {α β : Type} {x : Except Err α} {f : α → Except Err β} {e : Err}
    (h : (x >>= f) = .error e) : x = .error e ∨ ∃ a, x = .ok a ∧ f a = .error e := by
  cases x with
  | error e2 =>
      left
      have h2 : (Except.error e2 : Except Err β) = Except.error e := by
        rw [show ((Except.error e2 : Except Err α) >>= f) =
          (Except.error e2 : Except Err β) from rfl] at h
        exact h
      cases h2
      rfl
  | ok a => right; exact ⟨a, rfl, h⟩

theorem except_bind_ok_of {α β : Type} {x : Except Err α} {f : α → Except Err β} {a : α}
    (h : x = .ok a) : (x >>= f) = f a := by
  rw [h]; rfl

theorem except_ok_bind {α β : Type} (a : α) (f : α → Except Err β) :
    ((Except.ok a : Except Err α) >>= f) = f a := rfl

theorem except_error_bind {α β : Type} (e : Err) (f : α → Except Err β) :
    ((Except.error e : Except Err α) >>= f) = Except.error e := rfl

theorem except_map_ok {α β : Type} (a : α) (f : α → β) :
    (Except.ok a : Except Err α).map f = Except.ok (f a) := rfl

theorem repeat_interleave_length {α : Type} (x : List α) (k : Nat) :
    (repeat_interleave x k).length = x.length * k := by
  induction x with
  | nil => simp [repeat_interleave]
  | cons a t ih =>
      simp only [repeat_interleave, List.flatMap_cons, List.length_append,
        List.length_replicate, List.length_cons] at ih ⊢
      rw [ih, Nat.add_mul, Nat.one_mul]
      omega

theorem mem_repeat_interleave {α : Type} {r : α} {x : List α} {k : Nat}
    (h : r ∈ repeat_interleave x k) : r ∈ x := by
  rcases List.mem_flatMap.mp h with ⟨a, ha, hr⟩
  rw [List.eq_of_mem_replicate hr]
  exact ha

theorem repeat_interleave_getElem {α : Type} (x : List α) (k : Nat) (hk : 0 < k) :
    ∀ i, i < x.length * k → (repeat_interleave x k)[i]? = x[i / k]? := by
  induction x with
  | nil => intro i hi; simp at hi
  | cons a t ih =>
      intro i hi
      have hrep : (List.replicate k a).length = k := List.length_replicate ..
      by_cases hik : i < k
      · have h0 : i / k = 0 := Nat.div_eq_of_lt hik
        simp only [repeat_interleave, List.flatMap_cons]
        rw [List.getElem?_append, if_pos (by rw [hrep]; exact hik), h0]
        simp [List.getElem?_replicate, hik]
      · have hk2 : k ≤ i := Nat.not_lt.mp hik
        have hexp : (t.length + 1) * k = t.length * k + k := by
          rw [Nat.add_mul, Nat.one_mul]
        have hj : i - k < t.length * k := by
          rw [List.length_cons, hexp] at hi
          omega
        have hdiv : i / k = (i - k) / k + 1 := by
          have h3 : (i - k + k) / k = (i - k) / k + 1 := Nat.add_div_right _ hk
          rw [show i - k + k = i from by omega] at h3
          omega
        simp only [repeat_interleave, List.flatMap_cons]
        rw [List.getElem?_append, if_neg (by rw [hrep]; omega), hrep, hdiv]
        simp only [List.getElem?_cons_succ]
        exact ih (i - k) hj

theorem mem_zipWith_imp {α β γ : Type} {f : α → β → γ} :
    ∀ {a : List α} {b : List β} {z : γ}, z ∈ List.zipWith f a b →
      ∃ x, x ∈ a ∧ ∃ y, y ∈ b ∧ z = f x y := by
  intro a
  induction a with
  | nil => intro b z h; simp at h
  | cons x t ih =>
      intro b z h
      cases b with
      | nil => simp at h
      | cons y s =>
          rw [List.zipWith_cons_cons] at h
          rcases List.mem_cons.mp h with h | h
          · exact ⟨x, List.mem_cons_self .., y, List.mem_cons_self .., h⟩
          · rcases ih h with ⟨x2, hx2, y2, hy2, hz⟩
            exact ⟨x2, List.mem_cons_of_mem _ hx2, y2, List.mem_cons_of_mem _ hy2, hz⟩

theorem idxMap_length {α β : Type} (f : Nat → α → β) :
    ∀ (i : Nat) (l : List α), (idxMap f i l).length = l.length := by
  intro i l
  induction l generalizing i with
  | nil => rfl
  | cons a t ih => simp [idxMap, ih]

theorem idxMap_congr {α β : Type} {f g : Nat → α → β} (h : ∀ i a, f i a = g i a) :
    ∀ (i : Nat) (l : List α), idxMap f i l = idxMap g i l := by
  intro i l
  induction l generalizing i with
  | nil => rfl
  | cons a t ih => simp [idxMap, h, ih]

theorem idxMap_const {α β : Type} (g : α → β) :
    ∀ (i : Nat) (l : List α), idxMap (fun _ a => g a) i l = l.map g := by
  intro i l
  induction l generalizing i with
  | nil => rfl
  | cons a t ih => simp [idxMap, ih]

theorem mem_idxMap {α β : Type} {f : Nat → α → β} :
    ∀ {i : Nat} {l : List α} {b : β}, b ∈ idxMap f i l → ∃ j a, a ∈ l ∧ b = f j a := by
  intro i l
  induction l generalizing i with
  | nil => intro b h; simp [idxMap] at h
  | cons x t ih =>
      intro b h
      rcases List.mem_cons.mp h with h | h
      · exact ⟨i, x, List.mem_cons_self .., h⟩
      · rcases ih h with ⟨j, a, ha, hb⟩
        exact ⟨j, a, List.mem_cons_of_mem _ ha, hb⟩

theorem dropoutRow_length (mode : Mode) (drop : Nat → Bool) (rate : ℚ) (r : Vec) :
    (dropoutRow mode drop rate r).length = r.length := by
  cases mode with
  | eval => rfl
  | train =>
      rw [dropoutRow]
      split
      · rfl
      · rw [idxMap_length]

theorem dropoutRow_eval (drop : Nat → Bool) (rate : ℚ) (r : Vec) :
    dropoutRow .eval drop rate r = r := rfl

/-! Claim theorems. -/

/-- C1: the broadcast-repetition step of the forward pass turns a latent of b
rows of width d into b * k rows of width d whose row i is row i / k of the
input, for every i below b * k (block-contiguous repeat). -/
theorem claim_C1_broadcast_repeat (latent : Mat) (b k d : Nat)
    (hb : latent.length = b) (hb1 : 1 ≤ b) (hk : 1 ≤ k)
    (hd : ∀ r ∈ latent, r.length = d) :
    (repeat_interleave latent k).length = b * k ∧
    (∀ r ∈ repeat_interleave latent k, r.length = d) ∧
    (∀ i, i < b * k → (repeat_interleave latent k)[i]? = latent[i / k]?) := by
  refine ⟨by rw [repeat_interleave_length, hb], ?_, ?_⟩
  · intro r hr
    exact hd r (mem_repeat_interleave hr)
  · intro i hi
    exact repeat_interleave_getElem latent k hk i (by rw [hb]; exact hi)

/-- Witness for C1 at the concrete latent [[1], [2]] with b = 2, k = 2. -/
theorem claim_C1_broadcast_repeat_witness :
    ([[(1 : ℚ)], [2]] : Mat).length = 2 ∧
    ((repeat_interleave ([[(1 : ℚ)], [2]] : Mat) 2).length = 2 * 2 ∧
     (∀ r ∈ repeat_interleave ([[(1 : ℚ)], [2]] : Mat) 2, r.length = 1) ∧
     (∀ i, i < 2 * 2 →
       (repeat_interleave ([[(1 : ℚ)], [2]] : Mat) 2)[i]? =
         ([[(1 : ℚ)], [2]] : Mat)[i / 2]?)) :=
  ⟨rfl, claim_C1_broadcast_repeat [[1], [2]] 2 2 1 rfl (by decide) (by decide) (by decide)⟩

/-- C2: the parameter broadcaster replicates a scalar count times with every
element equal to that scalar, passes a list of exactly the requested length
through unchanged, and rejects a list of any other length with a
ConfigurationError naming the offending parameter. -/
theorem claim_C2_parse_to_list {α : Type} (a : α) (l : List α) (n : Nat) (name : String) :
    (Misc.parse_to_list (ValueOrList.scalar a) n name = .ok (List.replicate n a) ∧
      (List.replicate n a).length = n ∧ ∀ x ∈ List.replicate n a, x = a) ∧
    (l.length = n → Misc.parse_to_list (ValueOrList.list l) n name = .ok l) ∧
    (l.length ≠ n → Misc.parse_to_list (ValueOrList.list l) n name =
      .error (.configurationError name)) := by
  refine ⟨⟨rfl, List.length_replicate .., fun x hx => List.eq_of_mem_replicate hx⟩, ?_, ?_⟩
  · intro h
    simp [Misc.parse_to_list, h]
  · intro h
    simp [Misc.parse_to_list, h]

/-- Witness for C2 at concrete lists of length 2 and 3 against count 2. -/
theorem claim_C2_parse_to_list_witness :
    (([3, 4] : List Nat).length = 2 ∧
      Misc.parse_to_list (ValueOrList.list [3, 4]) 2 "p" = .ok [3, 4]) ∧
    (([3, 4, 5] : List Nat).length ≠ 2 ∧
      Misc.parse_to_list (ValueOrList.list [3, 4, 5]) 2 "p" =
        .error (.configurationError "p")) :=
  ⟨⟨rfl, (claim_C2_parse_to_list 0 [3, 4] 2 "p").2.1 rfl⟩,
   ⟨by decide, (claim_C2_parse_to_list 0 [3, 4, 5] 2 "p").2.2 (by decide)⟩⟩

/-- C4: the inference convenience operation thresholds the raw score at 0.1:
scores strictly above 0.1 give label 1, scores strictly below 0.1 give label
0, the scores [0.05, 0.15, 0.5] give [0, 1, 1], and inference is exactly this
elementwise transform of the forward scores. -/
theorem claim_C4_threshold (x : ℚ) :
    (1 / 10 < x → inference_transform x = 1) ∧
    (x < 1 / 10 → inference_transform x = 0) ∧
    List.map inference_transform [1 / 20, 3 / 20, 1 / 2] = [0, 1, 1] ∧
    (∀ (V : Type) (m : Res_Auto_3d_Model_Occu V) (volume : List V) (coords s : Mat),
      Res_Auto_3d_Model_Occu.forward m volume coords = .ok s →
      Res_Auto_3d_Model_Occu_Parallel.inference m volume coords =
        .ok (s.map (fun r => r.map inference_transform))) := by
  refine ⟨?_, ?_, by norm_num [inference_transform, signQ], ?_⟩
  · intro h
    have hs : signQ (x - 1 / 10) = 1 := by
      rw [signQ, if_pos (by linarith)]
    rw [inference_transform, hs]
    norm_num
  · intro h
    have hs : signQ (x - 1 / 10) = -1 := by
      rw [signQ, if_neg (by simp; linarith), if_pos (by linarith)]
    rw [inference_transform, hs]
    norm_num
  · intro V m volume coords s h
    rw [Res_Auto_3d_Model_Occu_Parallel.inference,
      Res_Auto_3d_Model_Occu_Parallel.forward, h]
    rfl

/-- Witness for C4 at the concrete scores 1/2 and 1/20. -/
theorem claim_C4_threshold_witness :
    ((1 : ℚ) / 10 < 1 / 2 ∧ inference_transform (1 / 2) = 1) ∧
    ((1 : ℚ) / 20 < 1 / 10 ∧ inference_transform (1 / 20) = 0) :=
  ⟨⟨by norm_num, (claim_C4_threshold (1 / 2)).1 (by norm_num)⟩,
   ⟨by norm_num, (claim_C4_threshold (1 / 20)).2.1 (by norm_num)⟩⟩

/-- C9: at raw score exactly 0.1 the inference transform returns 1/2 rather
than a binary label; every value it produces lies in the set 0, 1/2, 1, so
every entry of an inference output matrix lies in that set; the sample model
mRes realizes the 1/2 output at the public inference interface. -/
theorem claim_C9_tie_half (x : ℚ) :
    inference_transform (1 / 10) = 1 / 2 ∧
    (inference_transform x = 0 ∨ inference_transform x = 1 / 2 ∨
      inference_transform x = 1) ∧
    (∀ (V : Type) (m : Res_Auto_3d_Model_Occu V) (volume : List V) (coords out : Mat),
      Res_Auto_3d_Model_Occu_Parallel.inference m volume coords = .ok out →
      ∀ r ∈ out, ∀ q ∈ r, q = 0 ∨ q = 1 / 2 ∨ q = 1) ∧
    Res_Auto_3d_Model_Occu_Parallel.inference mRes [()] [[1, 2, 3]] = .ok [[1 / 2]] := by
  have hrange : ∀ y : ℚ, inference_transform y = 0 ∨ inference_transform y = 1 / 2 ∨
      inference_transform y = 1 := by
    intro y
    rw [inference_transform, signQ]
    split
    · right; right; norm_num
    · split
      · left; norm_num
      · right; left; norm_num
  refine ⟨by norm_num [inference_transform, signQ], hrange x, ?_, ?_⟩
  · intro V m volume coords out h
    rw [Res_Auto_3d_Model_Occu_Parallel.inference] at h
    cases hf : Res_Auto_3d_Model_Occu_Parallel.forward m volume coords with
    | error e => rw [hf] at h; exact Except.noConfusion h
    | ok s =>
        rw [hf] at h
        have h2 : Except.ok (ε := Err) (s.map (fun r => r.map inference_transform)) =
            .ok out := h
        have hout : out = s.map (fun r => r.map inference_transform) :=
          (Except.ok.inj h2).symm
        subst hout
        intro r hr q hq
        rcases List.mem_map.mp hr with ⟨r0, _, hr0⟩
        subst hr0
        rcases List.mem_map.mp hq with ⟨q0, _, hq0⟩
        subst hq0
        exact hrange q0
  · simp only [Res_Auto_3d_Model_Occu_Parallel.inference,
      Res_Auto_3d_Model_Occu_Parallel.forward, Res_Auto_3d_Model_Occu.forward,
      mRes, repeat_interleave, cat1, List.map_cons, List.map_nil,
      List.flatMap_cons, List.flatMap_nil, List.replicate, List.append_nil,
      List.length_cons, List.length_nil, List.zipWith_cons_cons,
      List.zipWith_nil_right, List.cons_append, List.nil_append,
      bind, Except.bind, Except.map]
    norm_num [inference_transform, signQ]

/-- Witness for C9: the concrete inference output entry 1/2 taken from the
run of the sample model lies in the three-element range. -/
theorem claim_C9_tie_half_witness :
    (1 : ℚ) / 2 = 0 ∨ (1 : ℚ) / 2 = 1 / 2 ∨ (1 : ℚ) / 2 = 1 :=
  (claim_C9_tie_half 0).2.2.1 Unit mRes [()] [[1, 2, 3]] [[1 / 2]]
    (claim_C9_tie_half 0).2.2.2 [1 / 2] (by simp) (1 / 2) (by simp)

theorem blockForward_eval (mask : Nat → Nat → Bool) (blk : CoordinatesFullyConnectedBlock)
    (x latent : Mat) :
    blockForward .eval mask blk x latent =
      if ∀ r ∈ x, r.length = blk.input_channels then
        .ok (x.map (fun r => blk.rowMap r latent))
      else .error .shapeMismatch := by
  rw [blockForward]
  split
  · have h2 : idxMap (fun ri r => dropoutRow Mode.eval (mask ri) blk.dropout_rate
        (blk.rowMap r latent)) 0 x = x.map (fun r => blk.rowMap r latent) :=
      (idxMap_congr (fun _ _ => rfl) 0 x).trans (idxMap_const _ 0 x)
    rw [h2]
  · rfl

theorem decodingFold_eval_mask (blocks : List CoordinatesFullyConnectedBlock) :
    ∀ (mask1 mask2 : Nat → Nat → Nat → Bool) (idx1 idx2 : Nat) (x latent : Mat),
    decodingFold .eval mask1 blocks idx1 x latent =
      decodingFold .eval mask2 blocks idx2 x latent := by
  induction blocks with
  | nil => intro _ _ _ _ _ _; rfl
  | cons blk rest ih =>
      intro mask1 mask2 idx1 idx2 x latent
      rw [decodingFold, decodingFold]
      have hb : blockForward Mode.eval (mask1 idx1) blk x latent =
          blockForward Mode.eval (mask2 idx2) blk x latent := by
        rw [blockForward_eval, blockForward_eval]
      rw [hb]
      cases hE : blockForward Mode.eval (mask2 idx2) blk x latent with
      | error e => rfl
      | ok y => exact ih mask1 mask2 (idx1 + 1) (idx2 + 1) y latent

theorem lastWidth_cons (blk : CoordinatesFullyConnectedBlock)
    (rest : List CoordinatesFullyConnectedBlock) (w : Nat) :
    lastWidth (blk :: rest) w = lastWidth rest blk.output_channels := rfl

theorem decodingFold_shape (mode : Mode) (mask : Nat → Nat → Nat → Bool) (latent : Mat) :
    ∀ (blocks : List CoordinatesFullyConnectedBlock) (w idx : Nat) (x : Mat),
    (∀ blk ∈ blocks, ∀ r L, (blk.rowMap r L).length = blk.output_channels) →
    widthsChain blocks w = true →
    (∀ r ∈ x, r.length = w) →
    ∃ y, decodingFold mode mask blocks idx x latent = .ok y ∧
      y.length = x.length ∧ (∀ r ∈ y, r.length = lastWidth blocks w) ∧
      (mode = .eval → y = x.map (fun r => evalRowPipe latent blocks r)) := by
  intro blocks
  induction blocks with
  | nil =>
      intro w idx x _ _ hx
      refine ⟨x, rfl, rfl, by simpa [lastWidth] using hx, ?_⟩
      intro _
      have h2 : x.map (fun r => evalRowPipe latent [] r) = x.map id := rfl
      rw [h2, List.map_id]
  | cons blk rest ih =>
      intro w idx x hmaps hchain hx
      rw [widthsChain, Bool.and_eq_true, decide_eq_true_eq] at hchain
      obtain ⟨hw, hchain⟩ := hchain
      have hcond : ∀ r ∈ x, r.length = blk.input_channels := by
        intro r hr
        rw [hw]
        exact hx r hr
      have hbf : blockForward mode (mask idx) blk x latent =
          .ok (idxMap (fun ri r => dropoutRow mode (mask idx ri) blk.dropout_rate
            (blk.rowMap r latent)) 0 x) := by
        rw [blockForward, if_pos hcond]
      have hy1len : (idxMap (fun ri r => dropoutRow mode (mask idx ri) blk.dropout_rate
          (blk.rowMap r latent)) 0 x).length = x.length := idxMap_length _ 0 x
      have hy1w : ∀ r ∈ idxMap (fun ri r => dropoutRow mode (mask idx ri) blk.dropout_rate
          (blk.rowMap r latent)) 0 x, r.length = blk.output_channels := by
        intro r hr
        rcases mem_idxMap hr with ⟨j, a, ha, hra⟩
        rw [hra, dropoutRow_length]
        exact hmaps blk (List.mem_cons_self ..) a latent
      obtain ⟨y, hy, hylen, hyw, hyeval⟩ := ih blk.output_channels (idx + 1)
        (idxMap (fun ri r => dropoutRow mode (mask idx ri) blk.dropout_rate
          (blk.rowMap r latent)) 0 x)
        (fun b hb => hmaps b (List.mem_cons_of_mem _ hb)) hchain hy1w
      refine ⟨y, ?_, by rw [hylen, hy1len], by rw [lastWidth_cons]; exact hyw, ?_⟩
      · rw [decodingFold, hbf]
        exact hy
      · intro hm
        subst hm
        have h2 : idxMap (fun ri r => dropoutRow Mode.eval (mask idx ri) blk.dropout_rate
            (blk.rowMap r latent)) 0 x = x.map (fun r => blk.rowMap r latent) :=
          (idxMap_congr (fun _ _ => rfl) 0 x).trans (idxMap_const _ 0 x)
        rw [hyeval rfl, h2, List.map_map]
        rfl

theorem cat1_ne_config (a b : Mat) (p : String) :
    cat1 a b ≠ .error (.configurationError p) := by
  rw [cat1]
  split <;> simp

theorem blockForward_ne_config (mode : Mode) (mask : Nat → Nat → Bool)
    (blk : CoordinatesFullyConnectedBlock) (x latent : Mat) (p : String) :
    blockForward mode mask blk x latent ≠ .error (.configurationError p) := by
  rw [blockForward]
  split <;> simp

theorem headForward_ne_config (actSem : ActivationKind → ℚ → ℚ) (lin : LinearLayer)
    (act : ActivationKind) (x : Mat) (p : String) :
    headForward actSem lin act x ≠ .error (.configurationError p) := by
  rw [headForward]
  split <;> simp

theorem decodingFold_ne_config (mode : Mode) (mask : Nat → Nat → Nat → Bool) :
    ∀ (blocks : List CoordinatesFullyConnectedBlock) (idx : Nat) (x latent : Mat)
      (p : String),
    decodingFold mode mask blocks idx x latent ≠ .error (.configurationError p) := by
  intro blocks
  induction blocks with
  | nil => intro idx x latent p h; exact Except.noConfusion h
  | cons blk rest ih =>
      intro idx x latent p h
      rw [decodingFold] at h
      cases hbf : blockForward mode (mask idx) blk x latent with
      | error e =>
          rw [hbf] at h
          have h2 : (Except.error e : Except Err Mat) =
            .error (.configurationError p) := h
          rw [Except.error.inj h2] at hbf
          exact blockForward_ne_config mode (mask idx) blk x latent p hbf
      | ok y =>
          rw [hbf] at h
          exact ih (idx + 1) y latent p h

theorem decodingLoop_ne_config (mode : Mode) (mask : Nat → Nat → Nat → Bool)
    (blocks : List CoordinatesFullyConnectedBlock) (x latent : Mat) (p : String) :
    decodingLoop mode mask blocks x latent ≠ .error (.configurationError p) := by
  cases blocks with
  | nil => intro h; exact Err.noConfusion (Except.error.inj h)
  | cons blk rest => exact decodingFold_ne_config mode mask (blk :: rest) 0 x latent p

theorem decodingLoop_eq_fold (mode : Mode) (mask : Nat → Nat → Nat → Bool)
    (blocks : List CoordinatesFullyConnectedBlock) (x latent : Mat)
    (h : blocks ≠ []) :
    decodingLoop mode mask blocks x latent = decodingFold mode mask blocks 0 x latent := by
  cases blocks with
  | nil => exact absurd rfl h
  | cons blk rest => rfl

theorem forward_eq_zeroDiv {V : Type} (actSem : ActivationKind → ℚ → ℚ) (mode : Mode)
    (mask : Nat → Nat → Nat → Bool) (m : OccupancyNetwork V) (volume : List V)
    (coords : Mat) (hz : volume.length = 0) :
    OccupancyNetwork.forward actSem mode mask m volume coords = .error .zeroDivision := by
  simp only [OccupancyNetwork.forward, if_pos hz]

theorem forward_eq_catErr {V : Type} (actSem : ActivationKind → ℚ → ℚ) (mode : Mode)
    (mask : Nat → Nat → Nat → Bool) (m : OccupancyNetwork V) (volume : List V)
    (coords : Mat) (e : Err) (hz : ¬ volume.length = 0)
    (hcat : cat1 (repeat_interleave (m.encoding volume)
      (coords.length / volume.length)) coords = .error e) :
    OccupancyNetwork.forward actSem mode mask m volume coords = .error e := by
  simp only [OccupancyNetwork.forward, if_neg hz, hcat]

theorem forward_eq_loopErr {V : Type} (actSem : ActivationKind → ℚ → ℚ) (mode : Mode)
    (mask : Nat → Nat → Nat → Bool) (m : OccupancyNetwork V) (volume : List V)
    (coords : Mat) (e : Err) (inputDec : Mat) (hz : ¬ volume.length = 0)
    (hcat : cat1 (repeat_interleave (m.encoding volume)
      (coords.length / volume.length)) coords = .ok inputDec)
    (hloop : decodingLoop mode mask m.decoding inputDec (m.encoding volume) = .error e) :
    OccupancyNetwork.forward actSem mode mask m volume coords = .error e := by
  simp only [OccupancyNetwork.forward, if_neg hz, hcat, hloop]

theorem forward_eq_head {V : Type} (actSem : ActivationKind → ℚ → ℚ) (mode : Mode)
    (mask : Nat → Nat → Nat → Bool) (m : OccupancyNetwork V) (volume : List V)
    (coords : Mat) (inputDec y : Mat) (hz : ¬ volume.length = 0)
    (hcat : cat1 (repeat_interleave (m.encoding volume)
      (coords.length / volume.length)) coords = .ok inputDec)
    (hloop : decodingLoop mode mask m.decoding inputDec (m.encoding volume) = .ok y) :
    OccupancyNetwork.forward actSem mode mask m volume coords =
      headForward actSem m.output_linear m.output_activation y := by
  simp only [OccupancyNetwork.forward, if_neg hz, hcat, hloop]

theorem zipWith_append_widths (a b : Mat) (da db : Nat)
    (ha : ∀ r ∈ a, r.length = da) (hb : ∀ r ∈ b, r.length = db) :
    ∀ r ∈ List.zipWith (fun r s => r ++ s) a b, r.length = da + db := by
  intro r hr
  rcases mem_zipWith_imp hr with ⟨x, hx, y, hy, hrxy⟩
  rw [hrxy, List.length_append, ha x hx, hb y hy]

theorem headForward_ok (actSem : ActivationKind → ℚ → ℚ) (lin : LinearLayer)
    (act : ActivationKind) (x : Mat) (hx : ∀ r ∈ x, r.length = lin.inFeatures) :
    headForward actSem lin act x =
      .ok (x.map (fun r => (lin.applyRow r).map (actSem act))) := by
  rw [headForward, if_pos hx]

theorem applyRow_length (lin : LinearLayer) (r : Vec) :
    (lin.applyRow r).length = min lin.weight.length lin.bias.length := by
  rw [LinearLayer.applyRow, List.length_zipWith]

/-- C3: shape contract of the repeat-concat forward pass.  For widths
consistent with the model, the pass on a batch of b volumes and b * k
coordinate rows of width 3 returns exactly b * k rows of one score each,
row-order-aligned with the coordinates: in evaluation mode row i of the
output is the fixed per-row pipeline applied to the concatenation of
broadcast-repeated latent row i and coordinate row i.  When the number of
coordinate rows is not a multiple of the batch, the pass fails with the shape
mismatch error raised by the concatenation instead of producing output.  The
last conjunct states the same contract for the identically wired forward
pass of Res_Auto_3d_Model_Occu, the other cited variant. -/
theorem claim_C3_shape_contract {V : Type} (actSem : ActivationKind → ℚ → ℚ)
    (m : OccupancyNetwork V) (volume : List V) (b d k : Nat) (coords : Mat)
    (hb : volume.length = b) (hb1 : 1 ≤ b) (hk : 1 ≤ k)
    (hlen : (m.encoding volume).length = b)
    (hd : ∀ r ∈ m.encoding volume, r.length = d)
    (hcoords : coords.length = b * k) (hc3 : ∀ r ∈ coords, r.length = 3)
    (hmaps : ∀ blk ∈ m.decoding, ∀ r L, (blk.rowMap r L).length = blk.output_channels)
    (hblocks : m.decoding ≠ [])
    (hchain : widthsChain m.decoding (d + 3) = true)
    (hW : m.output_linear.weight.length = 1)
    (hB : m.output_linear.bias.length = 1)
    (hIn : m.output_linear.inFeatures = lastWidth m.decoding (d + 3)) :
    (∀ (mode : Mode) (mask : Nat → Nat → Nat → Bool),
      ∃ out, OccupancyNetwork.forward actSem mode mask m volume coords = .ok out ∧
        out.length = b * k ∧ (∀ r ∈ out, r.length = 1) ∧
        (mode = .eval → out =
          (List.zipWith (fun r s => r ++ s) (repeat_interleave (m.encoding volume) k)
            coords).map (fun r =>
              (m.output_linear.applyRow
                (evalRowPipe (m.encoding volume) m.decoding r)).map
                (actSem m.output_activation)))) ∧
    (∀ (mode : Mode) (mask : Nat → Nat → Nat → Bool) (coords2 : Mat),
      ¬ (b ∣ coords2.length) →
      OccupancyNetwork.forward actSem mode mask m volume coords2 =
        .error .shapeMismatch) ∧
    (∀ (mr : Res_Auto_3d_Model_Occu V),
      (mr.encode volume).length = b → (∀ r, (mr.decode r).length = 1) →
      (∃ out, Res_Auto_3d_Model_Occu.forward mr volume coords = .ok out ∧
        out.length = b * k ∧ ∀ r ∈ out, r.length = 1) ∧
      (∀ coords2 : Mat, ¬ (b ∣ coords2.length) →
        Res_Auto_3d_Model_Occu.forward mr volume coords2 = .error .shapeMismatch)) := by
  have hz : ¬ volume.length = 0 := by omega
  refine ⟨?_, ?_, ?_⟩
  · intro mode mask
    have hkeq : coords.length / volume.length = k := by
      rw [hcoords, hb]
      exact Nat.mul_div_cancel_left k (by omega)
    have hreplen : (repeat_interleave (m.encoding volume) k).length = coords.length := by
      rw [repeat_interleave_length, hlen, hcoords]
    have hcat : cat1 (repeat_interleave (m.encoding volume) k) coords =
        .ok (List.zipWith (fun r s => r ++ s)
          (repeat_interleave (m.encoding volume) k) coords) := by
      rw [cat1, if_pos hreplen]
    have hinw : ∀ r ∈ List.zipWith (fun r s => r ++ s)
        (repeat_interleave (m.encoding volume) k) coords, r.length = d + 3 :=
      zipWith_append_widths _ _ d 3
        (fun r hr => hd r (mem_repeat_interleave hr)) hc3
    have hinlen : (List.zipWith (fun r s => r ++ s)
        (repeat_interleave (m.encoding volume) k) coords).length = b * k := by
      rw [List.length_zipWith, hreplen, hcoords]
      exact Nat.min_self _
    obtain ⟨y, hy, hylen, hyw, hyeval⟩ := decodingFold_shape mode mask (m.encoding volume)
      m.decoding (d + 3) 0 _ hmaps hchain hinw
    have hloop : decodingLoop mode mask m.decoding
        (List.zipWith (fun r s => r ++ s) (repeat_interleave (m.encoding volume) k)
          coords) (m.encoding volume) = .ok y := by
      rw [decodingLoop_eq_fold mode mask m.decoding _ _ hblocks]
      exact hy
    have hyin : ∀ r ∈ y, r.length = m.output_linear.inFeatures := by
      intro r hr
      rw [hIn]
      exact hyw r hr
    have hhead := headForward_ok actSem m.output_linear m.output_activation y hyin
    refine ⟨y.map (fun r => (m.output_linear.applyRow r).map (actSem m.output_activation)),
      ?_, ?_, ?_, ?_⟩
    · have hfe := forward_eq_head actSem mode mask m volume coords _ y hz
        (by rw [hkeq]; exact hcat) hloop
      rw [hfe, hhead]
    · rw [List.length_map, hylen, hinlen]
    · intro r hr
      rcases List.mem_map.mp hr with ⟨r0, _, hr0⟩
      rw [← hr0, List.length_map, applyRow_length, hW, hB]
      exact Nat.min_self 1
    · intro hm
      subst hm
      rw [hyeval rfl, List.map_map]
      rfl
  · intro mode mask coords2 hdvd
    have hrep2 : ¬ (repeat_interleave (m.encoding volume)
        (coords2.length / volume.length)).length = coords2.length := by
      rw [repeat_interleave_length, hlen, hb]
      intro hEqn
      exact hdvd ⟨coords2.length / b, hEqn.symm⟩
    have hcat2 : cat1 (repeat_interleave (m.encoding volume)
        (coords2.length / volume.length)) coords2 = .error .shapeMismatch := by
      rw [cat1, if_neg hrep2]
    exact forward_eq_catErr actSem mode mask m volume coords2 _ hz hcat2
  · intro mr hEnc hDec1
    constructor
    · have hkeq : coords.length / volume.length = k := by
        rw [hcoords, hb]
        exact Nat.mul_div_cancel_left k (by omega)
      have hreplen : (repeat_interleave (mr.encode volume)
          (coords.length / volume.length)).length = coords.length := by
        rw [hkeq, repeat_interleave_length, hEnc, hcoords]
      have hcat : cat1 (repeat_interleave (mr.encode volume)
          (coords.length / volume.length)) coords =
          .ok (List.zipWith (fun r s => r ++ s)
            (repeat_interleave (mr.encode volume) (coords.length / volume.length))
            coords) := by
        rw [cat1, if_pos hreplen]
      refine ⟨(List.zipWith (fun r s => r ++ s)
          (repeat_interleave (mr.encode volume) (coords.length / volume.length))
          coords).map mr.decode, ?_, ?_, ?_⟩
      · simp only [Res_Auto_3d_Model_Occu.forward, if_neg hz, hcat]
      · rw [List.length_map, List.length_zipWith, hreplen, hcoords]
        exact Nat.min_self _
      · intro r hr
        rcases List.mem_map.mp hr with ⟨r0, _, hr0⟩
        rw [← hr0]
        exact hDec1 r0
    · intro coords2 hdvd
      have hrep2 : ¬ (repeat_interleave (mr.encode volume)
          (coords2.length / volume.length)).length = coords2.length := by
        rw [repeat_interleave_length, hEnc, hb]
        intro hEqn
        exact hdvd ⟨coords2.length / b, hEqn.symm⟩
      have hcat2 : cat1 (repeat_interleave (mr.encode volume)
          (coords2.length / volume.length)) coords2 = .error .shapeMismatch := by
        rw [cat1, if_neg hrep2]
      simp only [Res_Auto_3d_Model_Occu.forward, if_neg hz, hcat2]

/-- Witness for C3 at a concrete two-volume model: the success branch with
k = 1 and the mismatch branch with a single coordinate row. -/
theorem claim_C3_shape_contract_witness :
    (volC3.length = 2 ∧ coordsC3.length = 2 * 1 ∧ ¬ (2 ∣ coordsBad.length)) ∧
    (∃ out, OccupancyNetwork.forward actSemSample .eval maskSample mC3 volC3 coordsC3 =
      .ok out ∧ out.length = 2 * 1 ∧ (∀ r ∈ out, r.length = 1)) ∧
    OccupancyNetwork.forward actSemSample .eval maskSample mC3 volC3 coordsBad =
      .error .shapeMismatch := by
  have hmaps : ∀ blk ∈ mC3.decoding, ∀ r L, (blk.rowMap r L).length = blk.output_channels := by
    intro blk hblk r L
    rcases List.mem_singleton.mp hblk with h
    rw [h]
    rfl
  have hmain := claim_C3_shape_contract actSemSample mC3 volC3 2 1 1 coordsC3
    rfl (by decide) (by decide) rfl (by decide) rfl (by decide) hmaps
    (List.cons_ne_nil _ _) rfl rfl rfl rfl
  obtain ⟨out, h1, h2, h3, _⟩ := hmain.1 Mode.eval maskSample
  exact ⟨⟨rfl, rfl, by decide⟩, ⟨out, h1, h2, h3⟩,
    hmain.2.1 Mode.eval maskSample coordsBad (by decide)⟩

/-- C6: a ConfigurationError can only arise at construction time: no forward
pass of any model value returns one, while the constructor does return one on
a length-mismatched list parameter (here the kernel size list of length 1
against 2 encoding blocks) and on an unrecognized activation name. -/
theorem claim_C6_config_error_construction_only :
    (∀ (V : Type) (actSem : ActivationKind → ℚ → ℚ) (mode : Mode)
      (mask : Nat → Nat → Nat → Bool) (m : OccupancyNetwork V)
      (volume : List V) (coords : Mat) (p : String),
      OccupancyNetwork.forward actSem mode mask m volume coords ≠
        .error (.configurationError p)) ∧
    OccupancyNetwork.init encSemSample decSemSample linInitSample
      2 (.list [(1, 8), (8, 8)]) (.list [3]) (.scalar 1) (.scalar 1)
      (.scalar "leaky relu") (.scalar "averagepool") (.scalar 2)
      (.scalar "instancenorm") (.scalar 0) (.scalar false)
      1 (.list [(11, 1)]) (.scalar "leaky relu") (.scalar "cbatchnorm")
      (.scalar 0) (.scalar true) "sigmoid" =
      .error (.configurationError "kernel size encoding") ∧
    OccupancyNetwork.init encSemSample decSemSample linInitSample
      1 (.list [(1, 8)]) (.scalar 3) (.scalar 1) (.scalar 1)
      (.scalar "bogus") (.scalar "averagepool") (.scalar 2)
      (.scalar "instancenorm") (.scalar 0) (.scalar false)
      1 (.list [(11, 1)]) (.scalar "leaky relu") (.scalar "cbatchnorm")
      (.scalar 0) (.scalar true) "sigmoid" =
      .error (.configurationError "bogus") := by
  refine ⟨?_, rfl, rfl⟩
  · intro V actSem mode mask m volume coords p h
    by_cases hz : volume.length = 0
    · rw [forward_eq_zeroDiv actSem mode mask m volume coords hz] at h
      exact Err.noConfusion (Except.error.inj h)
    · cases hc : cat1 (repeat_interleave (m.encoding volume)
          (coords.length / volume.length)) coords with
      | error e =>
          rw [forward_eq_catErr actSem mode mask m volume coords e hz hc] at h
          rw [Except.error.inj h] at hc
          exact cat1_ne_config _ _ p hc
      | ok inputDec =>
          cases hl : decodingLoop mode mask m.decoding inputDec (m.encoding volume) with
          | error e =>
              rw [forward_eq_loopErr actSem mode mask m volume coords e inputDec hz hc hl] at h
              rw [Except.error.inj h] at hl
              exact decodingLoop_ne_config mode mask m.decoding inputDec
                (m.encoding volume) p hl
          | ok y =>
              rw [forward_eq_head actSem mode mask m volume coords inputDec y hz hc hl] at h
              exact headForward_ne_config actSem m.output_linear m.output_activation y p h

/-- C7: in evaluation mode the forward pass is a function of the model and
the inputs alone: its value does not depend on the dropout randomness source,
so two consecutive calls with the same input return identical output. -/
theorem claim_C7_eval_deterministic {V : Type} (actSem : ActivationKind → ℚ → ℚ)
    (m : OccupancyNetwork V) (volume : List V) (coords : Mat)
    (mask1 mask2 : Nat → Nat → Nat → Bool) :
    OccupancyNetwork.forward actSem .eval mask1 m volume coords =
      OccupancyNetwork.forward actSem .eval mask2 m volume coords := by
  by_cases hz : volume.length = 0
  · rw [forward_eq_zeroDiv actSem .eval mask1 m volume coords hz,
      forward_eq_zeroDiv actSem .eval mask2 m volume coords hz]
  · cases hc : cat1 (repeat_interleave (m.encoding volume)
        (coords.length / volume.length)) coords with
    | error e =>
        rw [forward_eq_catErr actSem .eval mask1 m volume coords e hz hc,
          forward_eq_catErr actSem .eval mask2 m volume coords e hz hc]
    | ok inputDec =>
        have hl : decodingLoop .eval mask1 m.decoding inputDec (m.encoding volume) =
            decodingLoop .eval mask2 m.decoding inputDec (m.encoding volume) := by
          cases hdec : m.decoding with
          | nil => rfl
          | cons blk rest => exact decodingFold_eval_mask (blk :: rest) mask1 mask2 0 0 _ _
        cases hl2 : decodingLoop .eval mask2 m.decoding inputDec (m.encoding volume) with
        | error e =>
            rw [forward_eq_loopErr actSem .eval mask1 m volume coords e inputDec hz hc
              (hl.trans hl2),
              forward_eq_loopErr actSem .eval mask2 m volume coords e inputDec hz hc hl2]
        | ok y =>
            rw [forward_eq_head actSem .eval mask1 m volume coords inputDec y hz hc
              (hl.trans hl2),
              forward_eq_head actSem .eval mask2 m volume coords inputDec y hz hc hl2]

/-- Counterexample for C5: in the no-concat forward pass the conditioning
side input supplied to the decoder is the unrepeated flattened latent, not
the broadcast-repeated latent of the repeat-concat mode.  The probe block of
mC5 reports the row count of the conditioning it receives: the actual pass
reports 1 (the batch size), while running the same decoder on the
broadcast-repeated latent (2 = batch times queries-per-volume rows, what an
identical broadcast-repetition step would supply) reports 2. -/
theorem claim_C5_counterexample :
    OccupancyNetworkNoCat.forward actSemSample .eval maskSample mC5 volC5 coordsC5 =
      .ok [[1], [1]] ∧
    (match decodingLoop .eval maskSample mC5.decoding coordsC5
        (repeat_interleave (mC5.encoding volC5) (coordsC5.length / volC5.length)) with
      | .error e => (.error e : Except Err Mat)
      | .ok y => headForward actSemSample mC5.output_linear mC5.output_activation y) =
      .ok [[2], [2]] ∧
    ([[(1 : ℚ)], [1]] : Mat) ≠ [[2], [2]] := by
  refine ⟨?_, ?_, by norm_num⟩
  · simp only [OccupancyNetworkNoCat.forward, mC5, blkC5, volC5, coordsC5,
      decodingLoop, decodingFold, blockForward, dropoutRow, idxMap, headForward,
      LinearLayer.applyRow, LinearLayer.inFeatures, dotQ, actSemSample, maskSample,
      List.map_cons, List.map_nil, List.zipWith_cons_cons, List.zipWith_nil_right,
      List.zipWith_nil_left, List.headD, List.length_cons, List.length_nil,
      List.forall_mem_cons, List.sum_cons, List.sum_nil]
    norm_num
  · simp only [mC5, blkC5, volC5, coordsC5, repeat_interleave,
      List.flatMap_cons, List.flatMap_nil, List.replicate, List.append_nil,
      List.length_cons, List.length_nil,
      decodingLoop, decodingFold, blockForward, dropoutRow, idxMap, headForward,
      LinearLayer.applyRow, LinearLayer.inFeatures, dotQ, actSemSample, maskSample,
      List.map_cons, List.map_nil, List.zipWith_cons_cons, List.zipWith_nil_right,
      List.zipWith_nil_left, List.headD,
      List.forall_mem_cons, List.sum_cons, List.sum_nil]
    norm_num

/-- C5 amended: in the no-concat forward mode the encoding is the same
encoder-and-flatten map as in the repeat-concat mode, but no
broadcast-repetition step occurs: the coordinates alone (not concatenated
with the latent) enter the first decoder block, and the flattened latent,
unrepeated, enters each decoder block only as the conditioning side input to
its normalization, never concatenated into the running state. -/
theorem claim_C5_amended {V : Type} (actSem : ActivationKind → ℚ → ℚ) (mode : Mode)
    (mask : Nat → Nat → Nat → Bool) (m : OccupancyNetwork V) (volume : List V)
    (coords : Mat) (b0 : CoordinatesFullyConnectedBlock)
    (rest : List CoordinatesFullyConnectedBlock) (h : m.decoding = b0 :: rest) :
    OccupancyNetworkNoCat.forward actSem mode mask m volume coords =
      match blockForward mode (mask 0) b0 coords (m.encoding volume) with
      | .error e => .error e
      | .ok y =>
          match decodingFold mode mask rest 1 y (m.encoding volume) with
          | .error e => .error e
          | .ok z => headForward actSem m.output_linear m.output_activation z := by
  simp only [OccupancyNetworkNoCat.forward, h, decodingLoop]
  cases hbf : blockForward mode (mask 0) b0 coords (m.encoding volume) with
  | error e => simp only [decodingFold, hbf]
  | ok y => simp only [decodingFold, hbf]

/-- Witness for the amended C5 at the concrete probe model. -/
theorem claim_C5_amended_witness :
    mC5.decoding = blkC5 :: [] ∧
    (OccupancyNetworkNoCat.forward actSemSample .eval maskSample mC5 volC5 coordsC5 =
      match blockForward .eval (maskSample 0) blkC5 coordsC5 (mC5.encoding volC5) with
      | .error e => .error e
      | .ok y =>
          match decodingFold .eval maskSample [] 1 y (mC5.encoding volC5) with
          | .error e => .error e
          | .ok z => headForward actSemSample mC5.output_linear mC5.output_activation z) :=
  ⟨rfl, claim_C5_amended actSemSample .eval maskSample mC5 volC5 coordsC5 blkC5 [] rfl⟩

/-- C8: the forward pass never mutates its input buffers: threading the
volume and coordinate buffers through the pass returns them exactly as they
entered, both for the occupancy network and for the wrapped residual model,
and the traced output agrees with the plain forward pass. -/
theorem claim_C8_inputs_preserved {V : Type} (actSem : ActivationKind → ℚ → ℚ)
    (mode : Mode) (mask : Nat → Nat → Nat → Bool) (m : OccupancyNetwork V)
    (mr : Res_Auto_3d_Model_Occu V) (volume : List V) (coords : Mat) :
    (∀ (out : Mat) (v2 : List V) (c2 : Mat),
      OccupancyNetwork.forwardTrace actSem mode mask m volume coords =
        .ok (out, (v2, c2)) →
      v2 = volume ∧ c2 = coords ∧
        OccupancyNetwork.forward actSem mode mask m volume coords = .ok out) ∧
    (∀ (out : Mat) (v2 : List V) (c2 : Mat),
      Res_Auto_3d_Model_Occu.forwardTrace mr volume coords = .ok (out, (v2, c2)) →
      v2 = volume ∧ c2 = coords ∧
        Res_Auto_3d_Model_Occu.forward mr volume coords = .ok out) := by
  constructor
  · intro out v2 c2 htr
    by_cases hz : volume.length = 0
    · rw [show OccupancyNetwork.forwardTrace actSem mode mask m volume coords =
        .error .zeroDivision from by
          simp only [OccupancyNetwork.forwardTrace, if_pos hz]] at htr
      exact Except.noConfusion htr
    · cases hc : cat1 (repeat_interleave (m.encoding volume)
          (coords.length / volume.length)) coords with
      | error e =>
          rw [show OccupancyNetwork.forwardTrace actSem mode mask m volume coords =
            .error e from by
              simp only [OccupancyNetwork.forwardTrace, if_neg hz, hc]] at htr
          exact Except.noConfusion htr
      | ok inputDec =>
          cases hl : decodingLoop mode mask m.decoding inputDec (m.encoding volume) with
          | error e =>
              rw [show OccupancyNetwork.forwardTrace actSem mode mask m volume coords =
                .error e from by
                  simp only [OccupancyNetwork.forwardTrace, if_neg hz, hc, hl]] at htr
              exact Except.noConfusion htr
          | ok y =>
              cases hh : headForward actSem m.output_linear m.output_activation y with
              | error e =>
                  rw [show OccupancyNetwork.forwardTrace actSem mode mask m volume
                    coords = .error e from by
                      simp only [OccupancyNetwork.forwardTrace, if_neg hz, hc, hl, hh]] at htr
                  exact Except.noConfusion htr
              | ok output =>
                  rw [show OccupancyNetwork.forwardTrace actSem mode mask m volume
                    coords = .ok (output, (volume, coords)) from by
                      simp only [OccupancyNetwork.forwardTrace, if_neg hz, hc, hl, hh]] at htr
                  have hpair := Except.ok.inj htr
                  have hout : output = out := congrArg Prod.fst hpair
                  have hv : volume = v2 := congrArg (fun t => t.2.1) hpair
                  have hcd : coords = c2 := congrArg (fun t => t.2.2) hpair
                  refine ⟨hv.symm, hcd.symm, ?_⟩
                  rw [forward_eq_head actSem mode mask m volume coords inputDec y hz hc hl,
                    hh, hout]
  · intro out v2 c2 htr
    by_cases hz : volume.length = 0
    · rw [show Res_Auto_3d_Model_Occu.forwardTrace mr volume coords =
        .error .zeroDivision from by
          simp only [Res_Auto_3d_Model_Occu.forwardTrace, if_pos hz]] at htr
      exact Except.noConfusion htr
    · cases hc : cat1 (repeat_interleave (mr.encode volume)
          (coords.length / volume.length)) coords with
      | error e =>
          rw [show Res_Auto_3d_Model_Occu.forwardTrace mr volume coords =
            .error e from by
              simp only [Res_Auto_3d_Model_Occu.forwardTrace, if_neg hz, hc]] at htr
          exact Except.noConfusion htr
      | ok catted =>
          rw [show Res_Auto_3d_Model_Occu.forwardTrace mr volume coords =
            .ok (catted.map mr.decode, (volume, coords)) from by
              simp only [Res_Auto_3d_Model_Occu.forwardTrace, if_neg hz, hc]] at htr
          have hpair := Except.ok.inj htr
          have hout : catted.map mr.decode = out := congrArg Prod.fst hpair
          have hv : volume = v2 := congrArg (fun t => t.2.1) hpair
          have hcd : coords = c2 := congrArg (fun t => t.2.2) hpair
          refine ⟨hv.symm, hcd.symm, ?_⟩
          rw [show Res_Auto_3d_Model_Occu.forward mr volume coords =
            .ok (catted.map mr.decode) from by
              simp only [Res_Auto_3d_Model_Occu.forward, if_neg hz, hc], hout]

/-- Witness for C8: concrete traced runs of both models return the input
buffers unchanged. -/
theorem claim_C8_inputs_preserved_witness :
    (OccupancyNetwork.forwardTrace actSemSample .eval maskSample mC3 volC3 coordsC3 =
      .ok ([[0], [0]], (volC3, coordsC3)) ∧
      volC3 = volC3 ∧ coordsC3 = coordsC3 ∧
      OccupancyNetwork.forward actSemSample .eval maskSample mC3 volC3 coordsC3 =
        .ok [[0], [0]]) ∧
    (Res_Auto_3d_Model_Occu.forwardTrace mRes [()] [[1, 2, 3]] =
      .ok ([[1 / 10]], ([()], [[1, 2, 3]])) ∧
      ([()] : List Unit) = [()] ∧ ([[1, 2, 3]] : Mat) = [[1, 2, 3]] ∧
      Res_Auto_3d_Model_Occu.forward mRes [()] [[1, 2, 3]] = .ok [[1 / 10]]) := by
  have htr1 : OccupancyNetwork.forwardTrace actSemSample .eval maskSample mC3 volC3
      coordsC3 = .ok ([[0], [0]], (volC3, coordsC3)) := by
    simp only [OccupancyNetwork.forwardTrace, mC3, blkC3, volC3, coordsC3,
      repeat_interleave, List.flatMap_cons, List.flatMap_nil, List.replicate,
      List.append_nil, List.length_cons, List.length_nil, cat1,
      decodingLoop, decodingFold, blockForward, dropoutRow, idxMap, headForward,
      LinearLayer.applyRow, LinearLayer.inFeatures, dotQ, actSemSample, maskSample,
      List.map_cons, List.map_nil, List.zipWith_cons_cons, List.zipWith_nil_right,
      List.zipWith_nil_left, List.headD, List.forall_mem_cons, List.sum_cons,
      List.sum_nil, List.cons_append, List.nil_append]
    norm_num [idxMap, List.forall_mem_cons]
  have htr2 : Res_Auto_3d_Model_Occu.forwardTrace mRes [()] [[1, 2, 3]] =
      .ok ([[1 / 10]], ([()], [[1, 2, 3]])) := by
    simp only [Res_Auto_3d_Model_Occu.forwardTrace, mRes, repeat_interleave,
      List.flatMap_cons, List.flatMap_nil, List.replicate, List.append_nil,
      List.length_cons, List.length_nil, cat1, List.map_cons, List.map_nil,
      List.zipWith_cons_cons, List.zipWith_nil_right, List.zipWith_nil_left,
      List.cons_append, List.nil_append]
    norm_num
  have h1 := (claim_C8_inputs_preserved actSemSample .eval maskSample mC3 mRes
    volC3 coordsC3).1 [[0], [0]] volC3 coordsC3 htr1
  have h2 := (claim_C8_inputs_preserved actSemSample .eval maskSample mC3 mRes
    [()] [[1, 2, 3]]).2 [[1 / 10]] [()] [[1, 2, 3]] htr2
  exact ⟨⟨htr1, h1.1.symm ▸ ⟨rfl, rfl, h1.2.2⟩⟩, ⟨htr2, rfl, rfl, h2.2.2⟩⟩

theorem parse_to_list_eq_ok_length {α : Type} {v : ValueOrList α} {n : Nat}
    {name : String} {l : List α} (h : Misc.parse_to_list v n name = .ok l) :
    l.length = n := by
  cases v with
  | scalar a =>
      rw [Misc.parse_to_list] at h
      rw [← Except.ok.inj h, List.length_replicate]
  | list l2 =>
      rw [Misc.parse_to_list] at h
      split at h
      · rw [← Except.ok.inj h]
        assumption
      · exact Except.noConfusion h

/-- Counterexample for C10: with number_of_decoding_blocks = 0 the
construction itself fails rather than succeeding: with an empty decoder
channel list the output-head indexing channels_in_decoding_blocks[-1] raises
an IndexError, and with the nonempty default-shaped channel list the length
check against the count 0 raises a ConfigurationError; the forward-pass
unbound-variable failure is never reached. -/
theorem claim_C10_counterexample :
    OccupancyNetwork.init encSemSample decSemSample linInitSample
      1 (.list [(1, 8)]) (.scalar 3) (.scalar 1) (.scalar 1)
      (.scalar "leaky relu") (.scalar "averagepool") (.scalar 2)
      (.scalar "instancenorm") (.scalar 0) (.scalar false)
      0 (.list []) (.scalar "leaky relu") (.scalar "cbatchnorm")
      (.scalar 0) (.scalar true) "sigmoid" = .error .indexError ∧
    OccupancyNetwork.init encSemSample decSemSample linInitSample
      1 (.list [(1, 8)]) (.scalar 3) (.scalar 1) (.scalar 1)
      (.scalar "leaky relu") (.scalar "averagepool") (.scalar 2)
      (.scalar "instancenorm") (.scalar 0) (.scalar false)
      0 (.list [(483, 128), (128, 128), (128, 128), (128, 128), (128, 128)])
      (.scalar "leaky relu") (.scalar "cbatchnorm") (.scalar 0) (.scalar true)
      "sigmoid" = .error (.configurationError "channels in decoding blocks") :=
  ⟨rfl, rfl⟩

/-- C10 amended: constructing OccupancyNetwork (or OccupancyNetworkNoCat)
with number_of_decoding_blocks = 0 never succeeds, whatever the remaining
arguments: the decoder channel list must parse to length 0, and building the
output head then indexes the last element of that empty list
(channels_in_decoding_blocks[-1]) and fails at construction time, so the
forward-pass unbound-variable failure is never reached. -/
theorem claim_C10_amended {V : Type}
    (encSem : List VolumeEncoderBlockCfg → List V → Mat)
    (decSem : Nat → Nat → ActivationKind → NormKind → ℚ → Bool → Vec → Mat → Vec)
    (linInit : Nat → LinearLayer) (neb : Nat)
    (cie : ValueOrList (Nat × Nat)) (kse ste pde : ValueOrList Nat)
    (ace dse : ValueOrList String) (dfe : ValueOrList Nat)
    (nme : ValueOrList String) (dre : ValueOrList ℚ) (bie : ValueOrList Bool)
    (cdd : ValueOrList (Nat × Nat)) (acd nmd : ValueOrList String)
    (drd : ValueOrList ℚ) (bid : ValueOrList Bool) (outAct : String)
    (m : OccupancyNetwork V) :
    OccupancyNetwork.init encSem decSem linInit neb cie kse ste pde ace dse dfe
      nme dre bie 0 cdd acd nmd drd bid outAct ≠ .ok m ∧
    OccupancyNetworkNoCat.init encSem decSem linInit neb cie kse ste pde ace dse
      dfe nme dre bie 0 cdd acd nmd drd bid outAct ≠ .ok m := by
  have main : OccupancyNetwork.init encSem decSem linInit neb cie kse ste pde ace
      dse dfe nme dre bie 0 cdd acd nmd drd bid outAct ≠ .ok m := by
    intro h
    simp only [OccupancyNetwork.init] at h
    obtain ⟨cieL, hcie, h⟩ := except_bind_ok h
    obtain ⟨kseL, hkse, h⟩ := except_bind_ok h
    obtain ⟨steL, hste, h⟩ := except_bind_ok h
    obtain ⟨pdeL, hpde, h⟩ := except_bind_ok h
    obtain ⟨aceL, hace, h⟩ := except_bind_ok h
    obtain ⟨dseL, hdse, h⟩ := except_bind_ok h
    obtain ⟨dfeL, hdfe, h⟩ := except_bind_ok h
    obtain ⟨nmeL, hnme, h⟩ := except_bind_ok h
    obtain ⟨dreL, hdre, h⟩ := except_bind_ok h
    obtain ⟨bieL, hbie, h⟩ := except_bind_ok h
    obtain ⟨cddL, hcdd, h⟩ := except_bind_ok h
    obtain ⟨acdL, hacd, h⟩ := except_bind_ok h
    obtain ⟨nmdL, hnmd, h⟩ := except_bind_ok h
    obtain ⟨drdL, hdrd, h⟩ := except_bind_ok h
    obtain ⟨bidL, hbid, h⟩ := except_bind_ok h
    obtain ⟨encCfgs, henc, h⟩ := except_bind_ok h
    obtain ⟨decBlocks, hdec, h⟩ := except_bind_ok h
    obtain ⟨lastCh, hlast, h⟩ := except_bind_ok h
    have hnil : cddL = [] :=
      List.length_eq_zero.mp (parse_to_list_eq_ok_length hcdd)
    rw [hnil] at hlast
    exact Except.noConfusion hlast
  exact ⟨main, main⟩
